import Mathlib

/-!
Shallow embedding of `src/json_uploader.py`, a Streamlit application that
uploads JSON files into a Snowflake table and optionally displays the
stored rows.

The program is a straight-line script whose only state is the warehouse
table contents; every external effect (the Snowpark session, `json.load`,
`st.success` / `st.error` / `st.write` calls, `pd.Timestamp.now()`) is made
explicit:

* `Env J` packages the outcomes of the external calls: `jsonLoad` is
  `json.load` on the raw bytes of an upload, `insertOutcome k` is the
  outcome of the `k`-th `df.write.mode("append").save_as_table` call
  (`none` = success, `some e` = the exception message), `createOutcome`
  the outcome of the `CREATE TABLE IF NOT EXISTS` DDL, `readOutcome` the
  outcome of `session.table(...).to_pandas()`, `logoOutcome` the outcome
  of `session.file.get_stream(...)` for the logo, `now` is
  `pd.Timestamp.now()` (indexed by file position), `variantText` is what
  `collect()[i][0]` returns for a stored VARIANT value (`none` models SQL
  NULL, which makes `json.loads` raise `TypeError`), and `jsonLoads` is
  `json.loads` in the viewer.
* `Warehouse J` is the warehouse state: a map from table name to the
  (ordered) rows of that table, `none` when the table does not exist.
* `Msg J` records each Streamlit UI call (`st.image`, `st.title`,
  `st.success`, `st.error`, `st.dataframe`, `st.json`, `st.write`) with
  the arguments that identify it.

The parsed JSON values themselves are opaque (`J`): the program never
inspects them, it only moves them between `json.load` and the table.
-/

/-- One uploaded file as seen through the Streamlit upload widget:
`uploaded_file.name` and the raw bytes returned by `getvalue()`. -/
structure UploadedFile where
  name : String
  content : List Nat
deriving DecidableEq

/-- One row of the target table, exactly the three columns written by
`insert_json_data` (lines 59-62 of the source). -/
structure Row (J : Type) where
  file_name : String
  file_size_bytes : Nat
  json_content : J
deriving DecidableEq

/-- The warehouse state: table name to rows, `none` if the table does not
exist. -/
structure Warehouse (J : Type) where
  tables : String → Option (List (Row J))

/-- The environment of external effects; see the module comment. -/
structure Env (J : Type) where
  logoOutcome : Option String
  createOutcome : Option String
  jsonLoad : List Nat → Except String J
  insertOutcome : Nat → Option String
  now : Nat → Nat
  readOutcome : Option String
  variantText : J → Option String
  jsonLoads : String → Except String J

/-- A Streamlit UI call, with the arguments that identify it. -/
inductive Msg (J : Type) where
  | image : Msg J
  | title : Msg J
  | tableCreated (tableName : String) : Msg J
  | createError (e : String) : Msg J
  | insertSuccess (fileName tableName : String) : Msg J
  | insertError (e : String) : Msg J
  | invalidJson (fileName e : String) : Msg J
  | dataframe (rows : List (Row J)) : Msg J
  | jsonHeader : Msg J
  | stJson (j : J) : Msg J
  | previewError (rowNum : Nat) (e : String) : Msg J
  | rawValue (v : Option String) : Msg J
  | noJsonColumn : Msg J
  | fetchError (e : String) : Msg J
deriving DecidableEq

/-- The inputs of one interaction: the text input (table name), the files
selected in the upload widget, and the show-data checkbox. -/
structure Inputs where
  table_name : String
  uploaded_files : List UploadedFile
  show_data : Bool

/-- Append one row to table `tn`, creating it when absent: the semantics of
`df.write.mode("append").save_as_table(tn)`. -/
def Warehouse.appendRow (w : Warehouse J) (tn : String) (r : Row J) : Warehouse J :=
  ⟨fun n => if n = tn then some (((w.tables n).getD []) ++ [r]) else w.tables n⟩

/-- Lines 16-40: `create_table_if_not_exists`.  The `CREATE TABLE IF NOT
EXISTS` DDL leaves an existing table untouched and creates an empty one
otherwise; any exception is caught and shown with `st.error`. -/
def create_table_if_not_exists (env : Env J) (w : Warehouse J) (table_name : String) :
    Warehouse J × List (Msg J) :=
  match env.createOutcome with
  | some e => (w, [Msg.createError e])
  | none =>
      (⟨fun n => if n = table_name then some ((w.tables n).getD []) else w.tables n⟩,
       [Msg.tableCreated table_name])

/-- Lines 43-68: `insert_json_data`.  Builds a one-row dataframe
`[[file_name, file_size_bytes, json_content]]` and appends it; any
exception is caught and shown with `st.error`.  `idx` indexes the
insertion attempt in `env.insertOutcome`. -/
def insert_json_data (env : Env J) (idx : Nat) (table_name file_name : String)
    (file_size_bytes : Nat) (json_content : J) (w : Warehouse J) :
    Warehouse J × List (Msg J) :=
  match env.insertOutcome idx with
  | some e => (w, [Msg.insertError e])
  | none =>
      (w.appendRow table_name ⟨file_name, file_size_bytes, json_content⟩,
       [Msg.insertSuccess file_name table_name])

/-- Lines 98-112, body of the `for uploaded_file in uploaded_files` loop:
metadata extraction, the discarded `upload_timestamp`, `json.load` with the
`except json.JSONDecodeError` handler (`continue`), and the insertion. -/
def processFile (env : Env J) (table_name : String) (idx : Nat) (f : UploadedFile)
    (w : Warehouse J) : Warehouse J × List (Msg J) :=
  let file_name := f.name
  let file_size_bytes := f.content.length
  let _upload_timestamp := env.now idx
  match env.jsonLoad f.content with
  | Except.error e => (w, [Msg.invalidJson file_name e])
  | Except.ok json_content =>
      insert_json_data env idx table_name file_name file_size_bytes json_content w

/-- The whole `for uploaded_file in uploaded_files` loop, threading the
warehouse state and accumulating the UI messages in order. -/
def processFiles (env : Env J) (table_name : String) (idx : Nat)
    (files : List UploadedFile) (w : Warehouse J) : Warehouse J × List (Msg J) :=
  match files with
  | [] => (w, [])
  | f :: rest =>
      let step := processFile env table_name idx f w
      let restRes := processFiles env table_name (idx + 1) rest step.fst
      (restRes.fst, step.snd ++ restRes.snd)

/-- The message produced when `json.loads` is applied to a non-string
(SQL NULL comes back as Python `None`): a `TypeError`. -/
def typeErrorMsg : String := "the JSON object must be str, bytes or bytearray, not NoneType"

/-- The columns of the table created by `create_table_if_not_exists` /
written by `insert_json_data`; line 123 checks membership of
`json_content` in them. -/
def tableColumns : List String := ["file_name", "file_size_bytes", "json_content"]

/-- Lines 124-131: one iteration of the preview loop for row index `i`:
`json.loads` on `collect()[i][0]`, `st.json` on success, and on
`TypeError` / `JSONDecodeError` the diagnostic `st.write` (naming row
`i+1`) followed by an `st.write` of the raw stored value. -/
def previewRow (env : Env J) (i : Nat) (v : J) : List (Msg J) :=
  match env.variantText v with
  | none => [Msg.previewError (i + 1) typeErrorMsg, Msg.rawValue none]
  | some s =>
      match env.jsonLoads s with
      | Except.ok j => [Msg.stJson j]
      | Except.error e => [Msg.previewError (i + 1) e, Msg.rawValue (some s)]

/-- Line 124: `for i in range(min(5, df.count()))`, unrolled over the list
of stored `json_content` values; `n` is the remaining iteration count and
`i` the current row index. -/
def previewRows (env : Env J) (i : Nat) : Nat → List J → List (Msg J)
  | 0, _ => []
  | _ + 1, [] => []
  | n + 1, v :: rest => previewRow env i v ++ previewRows env (i + 1) n rest

/-- The message produced when `session.table` names a missing table. -/
def missingTableMsg : String := "Object does not exist or not authorized"

/-- Lines 115-137, body of the show-data checkbox: read the table
(`st.dataframe` of all rows), the preview header, the column check on
line 123, and the preview loop over the first `min 5 count` rows.  Any
exception in the outer `try` is caught and shown with `st.error`. -/
def viewer (env : Env J) (w : Warehouse J) (table_name : String) : List (Msg J) :=
  match env.readOutcome with
  | some e => [Msg.fetchError e]
  | none =>
      match w.tables table_name with
      | none => [Msg.fetchError missingTableMsg]
      | some rows =>
          Msg.dataframe rows :: Msg.jsonHeader ::
            (if tableColumns.contains "json_content" then
              previewRows env 0 (min 5 rows.length) (rows.map Row.json_content)
            else [Msg.noJsonColumn])

/-- The `AttributeError` raised on line 79 when `get_active_session`
returned `None` and `session.file` is dereferenced. -/
def attrErrorMsg : String := "AttributeError: NoneType object has no attribute file"

/-- Line 79: `session.file.get_stream(...).read()` for the logo.  Raises
(uncaught) when the session is `None` or when the stage read fails. -/
def fetchLogoStream (env : Env J) (session : Option Unit) : Except String Unit :=
  match session with
  | none => Except.error attrErrorMsg
  | some _ =>
      match env.logoOutcome with
      | some e => Except.error e
      | none => Except.ok ()

/-- Lines 89-137: the part of `main` after the session guard: the table
name input, `create_table_if_not_exists`, and — only when the upload
widget returned a non-empty list — the ingestion loop followed by the
show-data checkbox and viewer. -/
def mainBody (env : Env J) (inp : Inputs) (w : Warehouse J) :
    Warehouse J × List (Msg J) :=
  let createRes := create_table_if_not_exists env w inp.table_name
  match inp.uploaded_files with
  | [] => (createRes.fst, createRes.snd)
  | f :: rest =>
      let procRes := processFiles env inp.table_name 0 (f :: rest) createRes.fst
      let viewMsgs := if inp.show_data then viewer env procRes.fst inp.table_name else []
      (procRes.fst, createRes.snd ++ procRes.snd ++ viewMsgs)

/-- Lines 71-140: `main`.  The logo fetch dereferences the session before
the `if session is None` guard; an exception there propagates
(`Except.error`).  On the non-error path the guard is checked, then the
body runs, and `st.image` / `st.title` messages precede the rest. -/
def mainFn (env : Env J) (session : Option Unit) (inp : Inputs) (w : Warehouse J) :
    Except String (Warehouse J × List (Msg J)) :=
  match fetchLogoStream env session with
  | Except.error e => Except.error e
  | Except.ok _ =>
      if session.isNone then Except.ok (w, [Msg.image, Msg.title])
      else
        let r := mainBody env inp w
        Except.ok (r.fst, Msg.image :: Msg.title :: r.snd)

/-- `main` with the dead `if session is None: return` guard of line 85
removed; used to show the guard never changes the behaviour. -/
def mainFnNoGuard (env : Env J) (session : Option Unit) (inp : Inputs) (w : Warehouse J) :
    Except String (Warehouse J × List (Msg J)) :=
  match fetchLogoStream env session with
  | Except.error e => Except.error e
  | Except.ok _ =>
      let r := mainBody env inp w
      Except.ok (r.fst, Msg.image :: Msg.title :: r.snd)

/-- The row the ingestion loop contributes for file `f` when its bytes
parse, `none` when they do not. -/
def rowOf (env : Env J) (f : UploadedFile) : Option (Row J) :=
  match env.jsonLoad f.content with
  | Except.ok j => some ⟨f.name, f.content.length, j⟩
  | Except.error _ => none

/-- The parse diagnostic the ingestion loop emits for file `f` when its
bytes do not parse, `none` when they do. -/
def diagOf (env : Env J) (f : UploadedFile) : Option (Msg J) :=
  match env.jsonLoad f.content with
  | Except.ok _ => none
  | Except.error e => some (Msg.invalidJson f.name e)

/-- Is this message the parse-failure diagnostic of line 108? -/
def isParseDiag : Msg J → Bool
  | Msg.invalidJson _ _ => true
  | _ => false

/-- Is this message the first message of a preview-loop iteration?  Each
iteration of the loop of lines 124-131 emits exactly one `stJson` or one
`previewError`. -/
def isPreviewItem : Msg J → Bool
  | Msg.stJson _ => true
  | Msg.previewError _ _ => true
  | _ => false

/-- How many preview-loop iterations the message list records. -/
def previewMsgCount (msgs : List (Msg J)) : Nat :=
  (msgs.filter isPreviewItem).length

/-- The row counts of the `st.dataframe` calls in the message list. -/
def dataframeSizes (msgs : List (Msg J)) : List Nat :=
  msgs.filterMap fun m =>
    match m with
    | Msg.dataframe rows => some rows.length
    | _ => none

/-- Is this message produced by the show-data viewer block
(lines 115-137)? -/
def isViewerMsg : Msg J → Bool
  | Msg.dataframe _ => true
  | Msg.jsonHeader => true
  | Msg.stJson _ => true
  | Msg.previewError _ _ => true
  | Msg.rawValue _ => true
  | Msg.noJsonColumn => true
  | Msg.fetchError _ => true
  | _ => false

/-- The UI messages of a run; `[]` when the run raised. -/
def msgsOf : Except String (Warehouse J × List (Msg J)) → List (Msg J)
  | Except.ok out => out.snd
  | Except.error _ => []

/-- Replace the `pd.Timestamp.now()` oracle, leaving everything else of
the environment unchanged. -/
def Env.setNow (env : Env J) (g : Nat → Nat) : Env J :=
  ⟨env.logoOutcome, env.createOutcome, env.jsonLoad, env.insertOutcome, g,
   env.readOutcome, env.variantText, env.jsonLoads⟩

/-- Replace the table-read oracle, leaving everything else of the
environment unchanged. -/
def Env.setRead (env : Env J) (r : Option String) : Env J :=
  ⟨env.logoOutcome, env.createOutcome, env.jsonLoad, env.insertOutcome, env.now,
   r, env.variantText, env.jsonLoads⟩

/-! Concrete fixtures (over `J := Nat`) used by the witness theorems:
`json.load` fails exactly on empty byte lists, otherwise returns the byte
count; `json.loads` in the viewer fails exactly on the text `"bad"`. -/

/-- A fully healthy environment over `J := Nat`. -/
def env0 : Env Nat :=
  ⟨none, none,
   fun bs => if bs = [] then Except.error "Expecting value" else Except.ok bs.length,
   fun _ => none, fun _ => 0, none,
   fun j => some (toString j),
   fun s => if s = "bad" then Except.error "Expecting value" else Except.ok 9⟩

/-- Like `env0` but every stored value reads back as the unparseable text
`"bad"`. -/
def envPreviewBad : Env Nat :=
  ⟨none, none,
   fun bs => if bs = [] then Except.error "Expecting value" else Except.ok bs.length,
   fun _ => none, fun _ => 0, none,
   fun _ => some "bad",
   fun _ => Except.error "Expecting value"⟩

/-- Like `env0` but the first insertion attempt raises. -/
def envInsFail : Env Nat :=
  ⟨none, none,
   fun bs => if bs = [] then Except.error "Expecting value" else Except.ok bs.length,
   fun k => if k = 0 then some "insert boom" else none, fun _ => 0, none,
   fun j => some (toString j),
   fun s => if s = "bad" then Except.error "Expecting value" else Except.ok 9⟩

/-- Like `env0` but the logo stage read of line 79 raises. -/
def envLogoFail : Env Nat :=
  ⟨some "stage not found", none,
   fun bs => if bs = [] then Except.error "Expecting value" else Except.ok bs.length,
   fun _ => none, fun _ => 0, none,
   fun j => some (toString j),
   fun s => if s = "bad" then Except.error "Expecting value" else Except.ok 9⟩

/-- The empty warehouse. -/
def w0 : Warehouse Nat := ⟨fun _ => none⟩

/-- A seven-row table content. -/
def rows7 : List (Row Nat) :=
  [⟨"f", 1, 0⟩, ⟨"f", 1, 1⟩, ⟨"f", 1, 2⟩, ⟨"f", 1, 3⟩, ⟨"f", 1, 4⟩, ⟨"f", 1, 5⟩, ⟨"f", 1, 6⟩]

/-- A warehouse whose table `t` holds seven rows. -/
def w7 : Warehouse Nat := ⟨fun n => if n = "t" then some rows7 else none⟩

/-- A one-row table content. -/
def rowT : Row Nat := ⟨"old.json", 2, 42⟩

/-- A warehouse whose table `t` holds one previously inserted row. -/
def wT : Warehouse Nat := ⟨fun n => if n = "t" then some [rowT] else none⟩

/-- An upload whose three bytes parse (to `3` under `env0`). -/
def fileA : UploadedFile := ⟨"a.json", [1, 2, 3]⟩

/-- An upload whose empty byte list fails to parse. -/
def fileBad : UploadedFile := ⟨"bad.json", []⟩

/-- A second parsing upload. -/
def fileB : UploadedFile := ⟨"b.json", [7]⟩

/-- Inputs with an empty upload batch. -/
def inp0 : Inputs := ⟨"t", [], false⟩

/-! ## Helper lemmas shared by several claim theorems -/

/-- Processing one file never removes or rewrites existing rows: the
contents of any table are only ever extended. -/
theorem processFile_tables_extend (env : Env J) (tn : String) (idx : Nat)
    (f : UploadedFile) (w : Warehouse J) (n : String) (rows : List (Row J))
    (h : w.tables n = some rows) :
    ∃ suffix, (processFile env tn idx f w).fst.tables n = some (rows ++ suffix) := by
  rcases hj : env.jsonLoad f.content with e | j
  · exact ⟨[], by simp [processFile, hj, h]⟩
  · rcases hi : env.insertOutcome idx with _ | e
    · by_cases hn : n = tn
      · subst hn
        exact ⟨[⟨f.name, f.content.length, j⟩],
          by simp [processFile, insert_json_data, hj, hi, Warehouse.appendRow, h]⟩
      · exact ⟨[],
          by simp [processFile, insert_json_data, hj, hi, Warehouse.appendRow, hn, h]⟩
    · exact ⟨[], by simp [processFile, insert_json_data, hj, hi, h]⟩

/-- Processing a batch never removes or rewrites existing rows. -/
theorem processFiles_tables_extend (env : Env J) (tn : String) (files : List UploadedFile) :
    ∀ (idx : Nat) (w : Warehouse J) (n : String) (rows : List (Row J)),
      w.tables n = some rows →
      ∃ suffix, (processFiles env tn idx files w).fst.tables n = some (rows ++ suffix) := by
  induction files with
  | nil => exact fun idx w n rows h => ⟨[], by simpa [processFiles] using h⟩
  | cons f rest ih =>
    intro idx w n rows h
    obtain ⟨s1, h1⟩ := processFile_tables_extend env tn idx f w n rows h
    obtain ⟨s2, h2⟩ := ih (idx + 1) (processFile env tn idx f w).fst n (rows ++ s1) h1
    exact ⟨s1 ++ s2, by simp [processFiles, h2]⟩

/-- When every insertion attempt succeeds, a batch appends exactly the
rows of its parsing files (in order), and the parse diagnostics are
exactly one `invalidJson` per failing file, naming it. -/
theorem processFiles_ok_char (env : Env J) (tn : String)
    (hins : ∀ k, env.insertOutcome k = none) (files : List UploadedFile) :
    ∀ (idx : Nat) (w : Warehouse J) (rows0 : List (Row J)),
      w.tables tn = some rows0 →
      (processFiles env tn idx files w).fst.tables tn
          = some (rows0 ++ files.filterMap (rowOf env)) ∧
      (processFiles env tn idx files w).snd.filter isParseDiag
          = files.filterMap (diagOf env) := by
  induction files with
  | nil => intro idx w rows0 h; simp [processFiles, h]
  | cons f rest ih =>
    intro idx w rows0 h
    rcases hj : env.jsonLoad f.content with e | j
    · have step : processFile env tn idx f w = (w, [Msg.invalidJson f.name e]) := by
        simp [processFile, hj]
      obtain ⟨h1, h2⟩ := ih (idx + 1) w rows0 h
      constructor
      · simp [processFiles, step, h1, rowOf, hj]
      · simp [processFiles, step, h2, rowOf, diagOf, hj, isParseDiag]
    · have step : processFile env tn idx f w
          = (w.appendRow tn ⟨f.name, f.content.length, j⟩,
             [Msg.insertSuccess f.name tn]) := by
        simp [processFile, insert_json_data, hj, hins idx]
      have htn : (w.appendRow tn ⟨f.name, f.content.length, j⟩).tables tn
          = some (rows0 ++ [(⟨f.name, f.content.length, j⟩ : Row J)]) := by
        simp [Warehouse.appendRow, h]
      obtain ⟨h1, h2⟩ := ih (idx + 1) _ _ htn
      constructor
      · simp [processFiles, step, h1, rowOf, hj]
      · simp [processFiles, step, h2, diagOf, hj, isParseDiag]

/-- Every file contributes to exactly one of the two `filterMap`s: a row
when it parses, a diagnostic when it does not. -/
theorem rowOf_diagOf_length (env : Env J) (files : List UploadedFile) :
    (files.filterMap (rowOf env)).length + (files.filterMap (diagOf env)).length
      = files.length := by
  induction files with
  | nil => simp
  | cons f rest ih =>
    rcases hj : env.jsonLoad f.content with e | j <;>
      simp [List.filterMap_cons, rowOf, diagOf, hj] <;> omega

/-- `setNow` leaves the table-read oracle unchanged. -/
theorem setNow_readOutcome (env : Env J) (g : Nat → Nat) :
    (env.setNow g).readOutcome = env.readOutcome := rfl

/-- Timestamp replacement is invisible to a single file step (line 102
computes `upload_timestamp` and never uses it). -/
theorem processFile_setNow (env : Env J) (g : Nat → Nat) (tn : String) (idx : Nat)
    (f : UploadedFile) (w : Warehouse J) :
    processFile (env.setNow g) tn idx f w = processFile env tn idx f w := rfl

/-- Timestamp replacement is invisible to the whole batch loop. -/
theorem processFiles_setNow (env : Env J) (g : Nat → Nat) (tn : String)
    (files : List UploadedFile) :
    ∀ (idx : Nat) (w : Warehouse J),
      processFiles (env.setNow g) tn idx files w = processFiles env tn idx files w := by
  induction files with
  | nil => intro idx w; rfl
  | cons f rest ih => intro idx w; simp [processFiles, processFile_setNow, ih]

/-- Timestamp replacement is invisible to one preview iteration. -/
theorem previewRow_setNow (env : Env J) (g : Nat → Nat) (i : Nat) (v : J) :
    previewRow (env.setNow g) i v = previewRow env i v := rfl

/-- Timestamp replacement is invisible to the preview loop. -/
theorem previewRows_setNow (env : Env J) (g : Nat → Nat) :
    ∀ (n : Nat) (vs : List J) (i : Nat),
      previewRows (env.setNow g) i n vs = previewRows env i n vs := by
  intro n
  induction n with
  | zero => intro vs i; rfl
  | succ m ih =>
    intro vs i
    cases vs with
    | nil => rfl
    | cons v rest => simp [previewRows, previewRow_setNow, ih]

/-- Timestamp replacement is invisible to the viewer. -/
theorem viewer_setNow (env : Env J) (g : Nat → Nat) (w : Warehouse J) (tn : String) :
    viewer (env.setNow g) w tn = viewer env w tn := by
  unfold viewer
  simp only [setNow_readOutcome]
  cases env.readOutcome with
  | some e => rfl
  | none =>
    cases w.tables tn with
    | none => rfl
    | some rows => simp [previewRows_setNow]

/-- Timestamp replacement is invisible to table creation. -/
theorem create_setNow (env : Env J) (g : Nat → Nat) (w : Warehouse J) (tn : String) :
    create_table_if_not_exists (env.setNow g) w tn = create_table_if_not_exists env w tn :=
  rfl

/-- Timestamp replacement is invisible to the logo fetch. -/
theorem fetchLogo_setNow (env : Env J) (g : Nat → Nat) (s : Option Unit) :
    fetchLogoStream (env.setNow g) s = fetchLogoStream env s := rfl

/-- Timestamp replacement is invisible to the post-guard body. -/
theorem mainBody_setNow (env : Env J) (g : Nat → Nat) (inp : Inputs) (w : Warehouse J) :
    mainBody (env.setNow g) inp w = mainBody env inp w := by
  unfold mainBody
  cases h : inp.uploaded_files with
  | nil => rfl
  | cons f rest => simp [create_setNow, processFiles_setNow, viewer_setNow]

/-- Each preview iteration is counted exactly once by `isPreviewItem`. -/
theorem previewRow_count (env : Env J) (i : Nat) (v : J) :
    ((previewRow env i v).filter isPreviewItem).length = 1 := by
  rcases hv : env.variantText v with _ | s
  · simp [previewRow, hv, isPreviewItem]
  · rcases hj : env.jsonLoads s with e | j <;> simp [previewRow, hv, hj, isPreviewItem]

/-- The preview loop runs exactly its iteration count when enough rows
exist. -/
theorem previewRows_count (env : Env J) :
    ∀ (n : Nat) (vs : List J) (i : Nat), n ≤ vs.length →
      previewMsgCount (previewRows env i n vs) = n := by
  intro n
  induction n with
  | zero => intro vs i _; simp [previewRows, previewMsgCount]
  | succ m ih =>
    intro vs i h
    cases vs with
    | nil => simp at h
    | cons v rest =>
      have hr := ih rest (i + 1) (by simpa using h)
      unfold previewMsgCount at hr ⊢
      simp only [previewRows, List.filter_append, List.length_append, previewRow_count, hr]
      omega

/-- The preview loop issues no `st.dataframe` call. -/
theorem previewRows_no_dataframe (env : Env J) :
    ∀ (n : Nat) (vs : List J) (i : Nat), dataframeSizes (previewRows env i n vs) = [] := by
  intro n
  induction n with
  | zero => intro vs i; rfl
  | succ m ih =>
    intro vs i
    cases vs with
    | nil => rfl
    | cons v rest =>
      have hr := ih rest (i + 1)
      unfold dataframeSizes at hr ⊢
      simp only [previewRows, List.filterMap_append, hr, List.append_nil]
      rcases hv : env.variantText v with _ | s
      · simp [previewRow, hv]
      · rcases hj : env.jsonLoads s with e | j <;> simp [previewRow, hv, hj]

/-- On a successful read of an existing table the viewer output is one
`st.dataframe` of all rows followed by the preview of the first
`min 5 count` rows. -/
theorem viewer_ok_char (env : Env J) (w : Warehouse J) (tn : String)
    (rows : List (Row J)) (hr : env.readOutcome = none) (hw : w.tables tn = some rows) :
    viewer env w tn
      = Msg.dataframe rows :: Msg.jsonHeader ::
          previewRows env 0 (min 5 rows.length) (rows.map Row.json_content) := by
  have hcol : "json_content" ∈ tableColumns := by decide
  simp [viewer, hr, hw, hcol]

/-! ## Claim theorems -/

/-- C1: for every uploaded file whose bytes parse as valid JSON (and whose
insertion attempt the warehouse accepts), the ingestion step appends
exactly one row to the target table, whose `json_content` equals the
parsed value, whose `file_name` equals the upload filename, and whose
`file_size_bytes` equals the byte length of the raw upload; all other
tables are untouched and a success message is shown. -/
theorem c1_valid_json_appends_one_row (env : Env J) (tn : String) (idx : Nat)
    (f : UploadedFile) (w : Warehouse J) (j : J)
    (hp : env.jsonLoad f.content = Except.ok j) (hi : env.insertOutcome idx = none) :
    processFile env tn idx f w
        = (w.appendRow tn ⟨f.name, f.content.length, j⟩,
           [Msg.insertSuccess f.name tn]) ∧
    (processFile env tn idx f w).fst.tables tn
        = some (((w.tables tn).getD []) ++ [(⟨f.name, f.content.length, j⟩ : Row J)]) ∧
    ∀ n, n ≠ tn → (processFile env tn idx f w).fst.tables n = w.tables n := by
  have h1 : processFile env tn idx f w
      = (w.appendRow tn ⟨f.name, f.content.length, j⟩, [Msg.insertSuccess f.name tn]) := by
    simp [processFile, insert_json_data, hp, hi]
  refine ⟨h1, ?_, ?_⟩
  · rw [h1]; simp [Warehouse.appendRow]
  · intro n hn; rw [h1]; simp [Warehouse.appendRow, hn]

/-- Witness for C1 at a concrete input: `a.json` with three bytes parsing
to the value `3`. -/
theorem c1_witness :
    env0.jsonLoad fileA.content = Except.ok 3 ∧
    env0.insertOutcome 0 = none ∧
    processFile env0 "t" 0 fileA w0
      = (w0.appendRow "t" ⟨"a.json", 3, 3⟩, [Msg.insertSuccess "a.json" "t"]) :=
  ⟨rfl, rfl, (c1_valid_json_appends_one_row env0 "t" 0 fileA w0 3 rfl rfl).1⟩

/-- C2: in a batch where some files fail JSON parsing and the warehouse
accepts every insertion, each failing file adds no row and yields one
diagnostic naming it, processing continues, and exactly `N - M` rows are
appended while `M` parse diagnostics are shown. -/
theorem c2_batch_with_parse_failures (env : Env J) (tn : String)
    (files : List UploadedFile) (w : Warehouse J) (rows0 : List (Row J))
    (hins : ∀ k, env.insertOutcome k = none) (hw : w.tables tn = some rows0) :
    (processFiles env tn 0 files w).fst.tables tn
        = some (rows0 ++ files.filterMap (rowOf env)) ∧
    (processFiles env tn 0 files w).snd.filter isParseDiag
        = files.filterMap (diagOf env) ∧
    (files.filterMap (rowOf env)).length
        = files.length - (files.filterMap (diagOf env)).length := by
  obtain ⟨h1, h2⟩ := processFiles_ok_char env tn hins files 0 w rows0 hw
  have h3 := rowOf_diagOf_length env files
  exact ⟨h1, h2, by omega⟩

/-- Witness for C2 at a concrete batch of three files in which the middle
one fails to parse: two rows appended, one diagnostic naming
`bad.json`. -/
theorem c2_witness :
    (∀ k, env0.insertOutcome k = none) ∧
    wT.tables "t" = some [rowT] ∧
    (processFiles env0 "t" 0 [fileA, fileBad, fileB] wT).fst.tables "t"
        = some ([rowT] ++ [fileA, fileBad, fileB].filterMap (rowOf env0)) ∧
    (processFiles env0 "t" 0 [fileA, fileBad, fileB] wT).snd.filter isParseDiag
        = [fileA, fileBad, fileB].filterMap (diagOf env0) ∧
    [fileA, fileBad, fileB].filterMap (diagOf env0)
        = [Msg.invalidJson "bad.json" "Expecting value"] :=
  ⟨fun _ => rfl, by decide,
   (c2_batch_with_parse_failures env0 "t" [fileA, fileBad, fileB] wT [rowT]
      (fun _ => rfl) (by decide)).1,
   (c2_batch_with_parse_failures env0 "t" [fileA, fileBad, fileB] wT [rowT]
      (fun _ => rfl) (by decide)).2.1,
   by decide⟩

/-- C3: table creation is idempotent when the DDL call succeeds: creating
the same table twice equals creating it once, each call reports success
(never an error), and an existing table keeps its contents. -/
theorem c3_create_table_idempotent (env : Env J) (w : Warehouse J) (tn : String)
    (h : env.createOutcome = none) :
    (create_table_if_not_exists env (create_table_if_not_exists env w tn).fst tn).fst
        = (create_table_if_not_exists env w tn).fst ∧
    (create_table_if_not_exists env w tn).snd = [Msg.tableCreated tn] ∧
    (create_table_if_not_exists env (create_table_if_not_exists env w tn).fst tn).snd
        = [Msg.tableCreated tn] ∧
    ∀ rows, w.tables tn = some rows →
      (create_table_if_not_exists env w tn).fst.tables tn = some rows := by
  refine ⟨?_, by simp [create_table_if_not_exists, h],
    by simp [create_table_if_not_exists, h],
    fun rows hr => by simp [create_table_if_not_exists, h, hr]⟩
  simp only [create_table_if_not_exists, h]
  congr 1
  funext n
  by_cases hn : n = tn <;> simp [hn]

/-- Witness for C3 at a concrete warehouse whose table `t` already holds
one row. -/
theorem c3_witness :
    env0.createOutcome = none ∧
    (create_table_if_not_exists env0 (create_table_if_not_exists env0 wT "t").fst "t").fst
        = (create_table_if_not_exists env0 wT "t").fst ∧
    (create_table_if_not_exists env0 wT "t").fst.tables "t" = some [rowT] :=
  ⟨rfl, (c3_create_table_idempotent env0 wT "t" rfl).1,
   (c3_create_table_idempotent env0 wT "t" rfl).2.2.2 [rowT] (by decide)⟩

/-- C4: on a successful read of an existing table, the viewer shows one
tabular view with all rows and the JSON preview runs exactly
`min 5 rowCount` iterations. -/
theorem c4_viewer_preview_min5 (env : Env J) (w : Warehouse J) (tn : String)
    (rows : List (Row J)) (hr : env.readOutcome = none) (hw : w.tables tn = some rows) :
    dataframeSizes (viewer env w tn) = [rows.length] ∧
    previewMsgCount (viewer env w tn) = min 5 rows.length := by
  have hview := viewer_ok_char env w tn rows hr hw
  constructor
  · rw [hview]
    have hdf := previewRows_no_dataframe env (min 5 rows.length) (rows.map Row.json_content) 0
    unfold dataframeSizes at hdf ⊢
    simp [hdf]
  · rw [hview]
    have hc := previewRows_count env (min 5 rows.length) (rows.map Row.json_content) 0
      (by simp)
    unfold previewMsgCount at hc ⊢
    simp [isPreviewItem, hc]

/-- Witness for C4 at a table with seven rows: the tabular view shows all
seven rows and the preview runs exactly five iterations. -/
theorem c4_witness :
    env0.readOutcome = none ∧
    w7.tables "t" = some rows7 ∧
    dataframeSizes (viewer env0 w7 "t") = [7] ∧
    previewMsgCount (viewer env0 w7 "t") = 5 :=
  ⟨rfl, by decide,
   (c4_viewer_preview_min5 env0 w7 "t" rows7 rfl (by decide)).1,
   (c4_viewer_preview_min5 env0 w7 "t" rows7 rfl (by decide)).2⟩

/-- C5: when a previewed row's stored value reads back as text that is not
valid JSON, the viewer emits the diagnostic naming that row followed by
the raw stored value in place of the parsed form, and then continues
with the preview of the remaining rows. -/
theorem c5_preview_bad_value (env : Env J) (i n : Nat) (v : J) (rest : List J)
    (s e : String) (hv : env.variantText v = some s)
    (he : env.jsonLoads s = Except.error e) :
    previewRows env i (n + 1) (v :: rest)
      = Msg.previewError (i + 1) e :: Msg.rawValue (some s)
          :: previewRows env (i + 1) n rest := by
  simp [previewRows, previewRow, hv, he]

/-- Witness for C5 at a concrete stored value reading back as the
unparseable text `bad`, with one further row still previewed. -/
theorem c5_witness :
    envPreviewBad.variantText 0 = some "bad" ∧
    envPreviewBad.jsonLoads "bad" = Except.error "Expecting value" ∧
    previewRows envPreviewBad 0 2 [0, 1]
      = Msg.previewError 1 "Expecting value" :: Msg.rawValue (some "bad")
          :: previewRows envPreviewBad 1 1 [1] :=
  ⟨rfl, rfl,
   c5_preview_bad_value envPreviewBad 0 1 0 [1] "bad" "Expecting value" rfl rfl⟩

/-- C6: when one file parses but its insertion raises, the batch surfaces
an insertion error for that file, contributes no row for it, continues
with the remaining files unchanged, and every row already present in any
table stays (the table contents are only ever extended — no batch-level
rollback). -/
theorem c6_insert_failure_isolated (env : Env J) (tn : String) (idx : Nat)
    (f : UploadedFile) (rest : List UploadedFile) (w : Warehouse J) (j : J) (e : String)
    (hp : env.jsonLoad f.content = Except.ok j) (hi : env.insertOutcome idx = some e) :
    processFiles env tn idx (f :: rest) w
        = ((processFiles env tn (idx + 1) rest w).fst,
           Msg.insertError e :: (processFiles env tn (idx + 1) rest w).snd) ∧
    ∀ (n : String) (rows : List (Row J)), w.tables n = some rows →
      ∃ suffix, (processFiles env tn idx (f :: rest) w).fst.tables n
          = some (rows ++ suffix) := by
  have step : processFile env tn idx f w = (w, [Msg.insertError e]) := by
    simp [processFile, insert_json_data, hp, hi]
  constructor
  · simp [processFiles, step]
  · intro n rows h
    exact processFiles_tables_extend env tn (f :: rest) idx w n rows h

/-- Witness for C6: the first insertion attempt raises, the previously
stored row of table `t` survives. -/
theorem c6_witness :
    envInsFail.jsonLoad fileA.content = Except.ok 3 ∧
    envInsFail.insertOutcome 0 = some "insert boom" ∧
    (∃ suffix, (processFiles envInsFail "t" 0 [fileA, fileB] wT).fst.tables "t"
        = some ([rowT] ++ suffix)) :=
  ⟨rfl, rfl,
   (c6_insert_failure_isolated envInsFail "t" 0 fileA [fileB] wT 3 "insert boom"
      rfl rfl).2 "t" [rowT] (by decide)⟩

/-- C7 counterexample: the logo fetch of line 79 is a warehouse operation
(`session.file.get_stream`) outside every `try` block; when it raises,
the run aborts with the exception instead of completing — so not every
warehouse error is caught and surfaced. -/
theorem c7_counterexample :
    mainFn envLogoFail (some ()) inp0 w0 = Except.error "stage not found" := rfl

/-- C7 (amended): every error raised by the guarded warehouse operations
(table creation, insertion, table read and preview) is caught at its call
site, and whenever the session is present and the unguarded logo fetch of
line 79 succeeds the interaction runs to completion; an error in that
logo fetch aborts the run. -/
theorem c7_guarded_errors_nonfatal (env : Env J) (inp : Inputs) (w : Warehouse J)
    (hl : env.logoOutcome = none) :
    ∃ out, mainFn env (some ()) inp w = Except.ok out := by
  refine ⟨((mainBody env inp w).fst, Msg.image :: Msg.title :: (mainBody env inp w).snd), ?_⟩
  simp [mainFn, fetchLogoStream, hl]

/-- Witness for the amended C7: a healthy logo fetch makes the whole
interaction complete. -/
theorem c7_witness :
    env0.logoOutcome = none ∧
    ∃ out, mainFn env0 (some ()) inp0 w0 = Except.ok out :=
  ⟨rfl, c7_guarded_errors_nonfatal env0 inp0 w0 rfl⟩

/-- C8: the `upload_timestamp` computed on line 102 is never written:
replacing the timestamp oracle by any other function changes nothing —
neither the persisted warehouse state nor any message nor the run
outcome. -/
theorem c8_upload_timestamp_has_no_effect (env : Env J) (g : Nat → Nat)
    (session : Option Unit) (inp : Inputs) (w : Warehouse J) :
    mainFn (env.setNow g) session inp w = mainFn env session inp w := by
  unfold mainFn
  rw [fetchLogo_setNow]
  cases fetchLogoStream env session with
  | error e => rfl
  | ok u => simp [mainBody_setNow]

/-- C9: when the upload batch is empty, the show-data checkbox and the
viewer never execute: the run result does not depend on the checkbox
state or on the table-read oracle, and no viewer message is emitted. -/
theorem c9_empty_batch_no_viewer (env : Env J) (session : Option Unit) (tn : String)
    (b b' : Bool) (r : Option String) (w : Warehouse J) :
    mainFn env session ⟨tn, [], b⟩ w = mainFn env session ⟨tn, [], b'⟩ w ∧
    mainFn (env.setRead r) session ⟨tn, [], b⟩ w = mainFn env session ⟨tn, [], b⟩ w ∧
    (msgsOf (mainFn env session ⟨tn, [], b⟩ w)).filter isViewerMsg = [] := by
  refine ⟨rfl, rfl, ?_⟩
  cases session with
  | none => rfl
  | some u =>
    cases hl : env.logoOutcome with
    | some e => simp [mainFn, fetchLogoStream, hl, msgsOf]
    | none =>
      cases hc : env.createOutcome with
      | some e =>
          simp [mainFn, fetchLogoStream, mainBody, create_table_if_not_exists,
            hl, hc, msgsOf, isViewerMsg]
      | none =>
          simp [mainFn, fetchLogoStream, mainBody, create_table_if_not_exists,
            hl, hc, msgsOf, isViewerMsg]

/-- C10: the `if session is None` guard of line 85 is unreachable as a
protection: when the session provider returns `None`, the run raises at
the line-79 dereference before the guard runs, and deleting the guard
changes the behaviour of `main` on no input. -/
theorem c10_session_guard_dead (env : Env J) :
    (∀ (inp : Inputs) (w : Warehouse J),
        mainFn env none inp w = Except.error attrErrorMsg) ∧
    (∀ (session : Option Unit) (inp : Inputs) (w : Warehouse J),
        mainFn env session inp w = mainFnNoGuard env session inp w) := by
  constructor
  · intro inp w; rfl
  · intro session inp w
    cases session with
    | none => rfl
    | some u =>
      cases hl : env.logoOutcome with
      | some e => simp [mainFn, mainFnNoGuard, fetchLogoStream, hl]
      | none => simp [mainFn, mainFnNoGuard, fetchLogoStream, hl]
